import Mathlib

/-!
Verification development for the plot-level LiDAR trait-extraction
transformer (`lidar-plot-base-transformer/transformer.py` and friends).
Python functions are shallowly embedded as executable Lean definitions;
Python runtime errors become constructors of an explicit error type and
fallible functions return `Except`.
-/

/-- Error values standing for the Python exceptions the embedded code can
raise: `RuntimeError` for a missing or empty required declaration
(`ConfigError` in the spec taxonomy), `AttributeError` from calling a string
method on a non-string, `TypeError` from `None + str`, the unsupported-type
and arity `RuntimeError`s of `validate_calc_value`, and the georeferencing
`RuntimeError`s of `get_centroid_latlon`. -/
inductive PyErr where
  | configMissing (name : String)
  | configEmpty (name : String)
  | attributeError
  | typeError
  | unsupportedType
  | arity (expected got : Nat)
  | georefError
  | epsgNotFound
  deriving DecidableEq, Repr

/-- A Python value as stored in a module attribute: `None`, a boolean, a
string, or an integer.  The declared constants of `algorithm_lidar` are looked
up through `hasattr`/`getattr`, embedded as a finite map `String → Option PyVal`. -/
inductive PyVal where
  | pynone
  | pybool (b : Bool)
  | pystr (s : String)
  | pyint (n : Int)
  deriving DecidableEq, Repr

/-- Python truthiness of a `PyVal` (`if temp_name:`). -/
def PyVal.truthy : PyVal → Bool
  | .pynone => false
  | .pybool b => b
  | .pystr s => !(s = "")
  | .pyint n => !(n = 0)

/-- The algorithm module seen as a map from attribute name to declared value;
`none` models an absent attribute (`hasattr` false). -/
abbrev AlgModule := String → Option PyVal

/-- Embeds `__internal__.get_algorithm_definition_bool` (transformer.py lines
65-80): `value` starts `False`; when the attribute exists and is truthy,
`value` becomes `True`; the final statement returns `value if value else
default_value`, so a falsy stored value always yields the default. -/
def get_algorithm_definition_bool (alg : AlgModule) (variable_name : String)
    (default_value : Bool) : Bool :=
  let value : Bool :=
    match alg variable_name with
    | some temp_name => if temp_name.truthy then true else false
    | none => false
  if value then value else default_value

/-- Embeds `__internal__.get_algorithm_definition_str` (transformer.py lines
82-97): only a declared string is considered, it is trimmed, and the final
statement returns `value if value else default_value`, so an absent, non-string
or trim-empty declaration yields the default. -/
def get_algorithm_definition_str (alg : AlgModule) (variable_name : String)
    (default_value : String) : String :=
  let value : Option String :=
    match alg variable_name with
    | some (.pystr s) => some s.trim
    | some _ => none
    | none => none
  match value with
  | some s => if s = "" then default_value else s
  | none => default_value

/-- Embeds `__internal__.get_algorithm_variable_list` (transformer.py lines
105-122): a missing attribute raises `RuntimeError` (`configMissing`); the
attribute value is `.strip()`ped, which on a non-string raises
`AttributeError`; an empty trimmed string raises `RuntimeError`
(`configEmpty`); otherwise the trimmed string is split on commas. -/
def get_algorithm_variable_list (alg : AlgModule) (definition_name : String) :
    Except PyErr (List String) :=
  match alg definition_name with
  | none => .error (.configMissing definition_name)
  | some (.pystr s) =>
      let names := s.trim
      if names = "" then .error (.configEmpty definition_name)
      else .ok (names.splitOn ",")
  | some _ => .error .attributeError

/-- A value returned by the external algorithm function `calculate`, as seen by
`validate_calc_value`: a set, a dict (association list in insertion order), a
list, a tuple, or any other (scalar) value. -/
inductive CalcValue (α : Type) where
  | pyset (elems : List α)
  | pydict (pairs : List (String × α))
  | pylist (elems : List α)
  | pytuple (elems : List α)
  | scalar (v : α)

/-- Whether the calculated value is a Python `set`. -/
def CalcValue.isSet {α : Type} : CalcValue α → Bool
  | .pyset _ => true
  | _ => false

/-- Lookup in the association-list model of a Python dict: the value of the
first pair carrying the key (`key in calc_value` / `calc_value[key]`). -/
def dictLookup {α : Type} (pairs : List (String × α)) (k : String) : Option α :=
  (pairs.find? (fun p => p.1 = k)).map (fun p => p.2)

/-- Embeds `__internal__.validate_calc_value` (transformer.py lines 636-671).
A set raises the unsupported-type `RuntimeError` first.  `values` starts as
`[]`; a dict replaces it by the values of the expected names found in the
dict, in `variable_names` order; the `elif not isinstance(calc_value, (list,
tuple))` branch wraps a scalar; for a list or tuple NO branch runs, so
`values` keeps its initial value `[]` (the source has no `else` assigning the
sequence).  Finally the arity check compares `len(values)` with
`len(variable_names)`. -/
def validate_calc_value {α : Type} (calc_value : CalcValue α)
    (variable_names : List String) : Except PyErr (List α) :=
  if calc_value.isSet then .error .unsupportedType
  else
    let values : List α :=
      match calc_value with
      | .pydict pairs => variable_names.filterMap (fun key => dictLookup pairs key)
      | .pylist _ => []
      | .pytuple _ => []
      | .pyset _ => []
      | .scalar v => [v]
    if values.length = variable_names.length then .ok values
    else .error (.arity variable_names.length values.length)

/-- Python `math.trunc` on a rational: truncation toward zero. -/
def pytrunc (x : ℚ) : ℤ := if 0 ≤ x then ⌊x⌋ else ⌈x⌉

/-- Constant `MAX_FILE_OPEN_SLEEP_SEC` (transformer.py line 23). -/
def MAX_FILE_OPEN_SLEEP_SEC : ℚ := 30

/-- Embeds `__internal__.get_open_backoff` (transformer.py lines 326-363).
The random draw `multiplier` (whichever generator produced it) is passed
explicitly.  `None` gives 1; otherwise `sleep = trunc(prev * multiplier *
100) / 10`, and when that exceeds the 30-second ceiling it is replaced by
`max(0.1, trunc(multiplier * 100) / 10)`. -/
def get_open_backoff (prev : Option ℚ) (multiplier : ℚ) : ℚ :=
  match prev with
  | none => 1
  | some p =>
      let sleep : ℚ := (pytrunc (p * multiplier * 100) : ℚ) / 10
      if MAX_FILE_OPEN_SLEEP_SEC < sleep then
        max (1 / 10) ((pytrunc (multiplier * 100) : ℚ) / 10)
      else sleep

/-- A Python float that may be `numpy.nan`, with IEEE comparison semantics:
`nan == x` is `False` for every `x`, including `nan` itself. -/
inductive PyFloat where
  | nan
  | val (q : ℚ)
  deriving DecidableEq, Repr

/-- Python `==` on floats: NaN compares unequal to everything, itself
included. -/
def pyFloatEq : PyFloat → PyFloat → Bool
  | .nan, _ => false
  | _, .nan => false
  | .val a, .val b => a = b

/-- A capture file as the georeferencing code observes it: whether the gdal
geotransform extraction succeeds, the rectilinear bounds when it does, and the
EPSG authority code `get_epsg` finds (`none` on failure). -/
structure GeoFile where
  geotransformOk : Bool
  min_y : ℚ
  max_y : ℚ
  min_x : ℚ
  max_x : ℚ
  epsg : Option ℤ

/-- Embeds `__internal__.image_get_geobounds` (transformer.py lines 200-227):
on success the list `[min_y, max_y, min_x, max_x]`; on any extraction failure
the all-NaN sentinel `[np.nan, np.nan, np.nan, np.nan]`, never an error. -/
def image_get_geobounds (f : GeoFile) : List PyFloat :=
  if f.geotransformOk then
    [.val f.min_y, .val f.max_y, .val f.min_x, .val f.max_x]
  else [.nan, .nan, .nan, .nan]

/-- Embeds the decision structure of `__internal__.get_centroid_latlon`
(transformer.py lines 248-305) up to the ring construction: the NaN-sentinel
check is literally `bounds[0] == np.nan` (line 260), then the EPSG lookup is
checked against `None`; the EPSG import and the coordinate transformation are
treated as succeeding for any present code, and the function result is
modelled as the five-point linear ring it builds from `bounds` (upper-left,
upper-right, lower-right, lower-left, closing point), from which the centroid
is taken. -/
def get_centroid_latlon (f : GeoFile) : Except PyErr (List (PyFloat × PyFloat)) :=
  let bounds := image_get_geobounds f
  if pyFloatEq (bounds.getD 0 .nan) .nan then .error .georefError
  else
    match f.epsg with
    | none => .error .epsgNotFound
    | some _ =>
        .ok [(bounds.getD 2 .nan, bounds.getD 1 .nan),
             (bounds.getD 3 .nan, bounds.getD 1 .nan),
             (bounds.getD 3 .nan, bounds.getD 0 .nan),
             (bounds.getD 2 .nan, bounds.getD 0 .nan),
             (bounds.getD 2 .nan, bounds.getD 1 .nan)]

/-- Contents of a CSV output file as the list of lines written so far; each
write appends one newline-terminated line. -/
abbrev FileLines := List String

/-- Byte size of the file contents: each written line contributes its length
plus the terminating newline (`os.fstat(...).st_size`). -/
def fileSize (lines : FileLines) : Nat := (lines.map (fun s => s.length + 1)).sum

/-- Embeds `__internal__.write_csv_file` (transformer.py lines 366-425) for a
writable path, so the append-mode open succeeds on the first try (the retry
loop, lines 387-405, only engages on open failure and is covered by
`get_open_backoff`).  The file is `none` when absent; the append-mode `open`
creates it empty.  An empty `filename` or `data` returns `False` with no side
effect.  With the file size at most 0 the header is written first:
`csv_file.write(header + "\n")` with `header = None` raises `TypeError`
before anything is written, the handle is closed by the `finally`, and the
exception is re-raised, so the open-created file state is returned alongside
the error.  Otherwise the data line is appended and `True` returned. -/
def write_csv_file (filename : String) (header : Option String) (data : String)
    (file : Option FileLines) : Except PyErr Bool × Option FileLines :=
  if filename = "" ∨ data = "" then (.ok false, file)
  else
    let lines := file.getD []
    if fileSize lines ≤ 0 then
      match header with
      | none => (.error .typeError, some lines)
      | some h => (.ok true, some (lines ++ [h, data]))
    else (.ok true, some (lines ++ [data]))

/-- One sequential invocation of `write_csv_file` against the evolving file
state: the success flag so far is AND-ed with this call returning `True`. -/
def writeStep (filename h : String) (acc : Bool × Option FileLines)
    (d : String) : Bool × Option FileLines :=
  let r := write_csv_file filename (some h) d acc.2
  ((acc.1 && (match r.1 with | .ok b => b | .error _ => false)), r.2)

/-- Runs `write_csv_file` once for each entry of `datas` in order against the
evolving file state, with a fixed filename and header, and records whether
every call returned `True`: the model of N sequential process launches each
appending one row to the same file. -/
def writeSeq (filename h : String) (datas : List String)
    (file : Option FileLines) : Bool × Option FileLines :=
  datas.foldl (writeStep filename h) (true, file)

/-- Control-flow skeleton of `perform_process` (transformer.py lines 740-882):
the environment check for `calculate` returns code -1001 without raising; then
`get_algorithm_variable_list(VARIABLE_NAMES)` runs (line 761) BEFORE the
per-file loop, and its `RuntimeError` propagates out of `perform_process`.
The per-file loop catches every per-file exception, so it is abstracted by
`entryWritten` deciding whether a file produced CSV entries; the summary
carries the result code, `files_processed` and `lines_written`. -/
def perform_process (alg : AlgModule) (entryWritten : String → Bool)
    (files : List String) : Except PyErr (Int × Nat × Nat) :=
  if (alg "calculate").isNone then .ok (-1001, 0, 0)
  else
    match get_algorithm_variable_list alg "VARIABLE_NAMES" with
    | .error e => .error e
    | .ok _ =>
        let counts := files.foldl
          (fun acc f => (acc.1 + 1, acc.2 + (if entryWritten f then 1 else 0)))
          ((0 : Nat), (0 : Nat))
        .ok (0, counts.1, counts.2)

/-- Modelled from the spec: the Overlap & Clipping Engine (spec section 4.3)
is code of this repository that is not under `src/`.  The fixed overlap
admission threshold: a plot is processed for a capture only when the overlap
fraction reaches 10 percent. -/
def PLOT_OVERLAP_THRESHOLD : ℚ := 10 / 100

/-- Outcome of the per-(capture, plot) admission decision: the pair is either
admitted for processing or skipped and logged; there is no error outcome. -/
inductive OverlapDecision where
  | admitted
  | skippedLogged
  deriving DecidableEq, Repr

/-- Modelled from the spec: the admission rule of the Overlap & Clipping
Engine (spec sections 3 and 4.3), absent from `src/` — "proceed only if
fraction ≥ 0.10"; a below-threshold pair "is skipped and logged, never an
error".  The decision is a total function into `OverlapDecision`, which has
no error alternative. -/
def plot_admission (overlap_fraction : ℚ) : OverlapDecision :=
  if PLOT_OVERLAP_THRESHOLD ≤ overlap_fraction then .admitted
  else .skippedLogged

/-- A demonstration algorithm module declaring the feature flag
`WRITE_GEOSTREAMS_CSV = False` and a non-boolean `EXTRA = 5`. -/
def demoAlgFalseFlag : AlgModule := fun name =>
  if name = "WRITE_GEOSTREAMS_CSV" then some (.pybool false)
  else if name = "EXTRA" then some (.pyint 5)
  else none

/-- C1: for every capture-plot pair, admission holds iff the overlap fraction
is at least 0.10; a fraction of exactly 0.10 admits, 0.099999 is skipped (and
the decision type has no error outcome, so a below-threshold pair is never an
error). -/
theorem plot_admission_iff_threshold :
    ∀ f : ℚ, (plot_admission f = .admitted ↔ 1 / 10 ≤ f) ∧
      plot_admission (10 / 100) = .admitted ∧
      plot_admission (99999 / 1000000) = .skippedLogged := by
  intro f
  refine ⟨?_, ?_, ?_⟩
  · have h : PLOT_OVERLAP_THRESHOLD = 1 / 10 := by norm_num [PLOT_OVERLAP_THRESHOLD]
    unfold plot_admission
    rw [h]
    by_cases hf : (1 : ℚ) / 10 ≤ f
    · simp [hf]
    · simp [hf]
  · unfold plot_admission
    rw [if_pos (by norm_num [PLOT_OVERLAP_THRESHOLD])]
  · unfold plot_admission
    rw [if_neg (by norm_num [PLOT_OVERLAP_THRESHOLD])]

/-- C5: a set returned by the algorithm always raises the unsupported-type
error, for any set contents and any variable-name list. -/
theorem validate_calc_value_set_unsupported :
    ∀ {α : Type} (elems : List α) (variable_names : List String),
      validate_calc_value (CalcValue.pyset elems) variable_names =
        .error .unsupportedType := by
  intro α elems variable_names
  rfl

/-- C3: contrary to the claim, a list (or tuple) whose length equals the
number of variable names is NOT returned unchanged: `values` keeps its
initial value `[]` because the source line `elif not isinstance(calc_value,
(list, tuple))` has no `else` branch, so the arity check fails with
"Expected 2 and received 0" instead of succeeding. -/
theorem validate_calc_value_list_arity_bug :
    validate_calc_value (CalcValue.pylist [(5 : ℤ), 3]) ["height", "width"] =
      .error (.arity 2 0) ∧
    validate_calc_value (CalcValue.pytuple [(5 : ℤ), 3]) ["height", "width"] =
      .error (.arity 2 0) := ⟨rfl, rfl⟩

/-- C7: contrary to the claim, when geobounds extraction fails (all-NaN
sentinel) but an EPSG code is readable, `get_centroid_latlon` does not raise:
the check `bounds[0] == np.nan` is always `False` because NaN compares
unequal to itself, so the function proceeds and builds a polygon ring whose
points are all NaN. -/
theorem get_centroid_latlon_nan_bug :
    get_centroid_latlon ⟨false, 0, 0, 0, 0, some 32612⟩ =
      .ok [(.nan, .nan), (.nan, .nan), (.nan, .nan), (.nan, .nan), (.nan, .nan)] := rfl

/-- C9: contrary to the claim (and to the docstring of the function, which
promises the default only for an undefined or `None` variable), a declared
boolean `False` makes `get_algorithm_definition_bool` return the supplied
default, and a declared truthy non-boolean is returned as `True` rather than
falling back to the default. -/
theorem get_algorithm_definition_bool_false_bug :
    get_algorithm_definition_bool demoAlgFalseFlag "WRITE_GEOSTREAMS_CSV" true = true ∧
    get_algorithm_definition_bool demoAlgFalseFlag "EXTRA" false = true := ⟨rfl, rfl⟩

/-- C6: `get_open_backoff(None)` is exactly 1; for every previous value and
every multiplier in [0,1) the returned backoff is at most 30; and a computed
sleep exceeding the 30-second ceiling is replaced by
`max(0.1, trunc(multiplier * 100) / 10)`. -/
theorem get_open_backoff_bound :
    (∀ m : ℚ, get_open_backoff none m = 1) ∧
    (∀ p m : ℚ, 0 ≤ m → m < 1 → get_open_backoff (some p) m ≤ 30) ∧
    (∀ p m : ℚ, MAX_FILE_OPEN_SLEEP_SEC < (pytrunc (p * m * 100) : ℚ) / 10 →
      get_open_backoff (some p) m = max (1 / 10) ((pytrunc (m * 100) : ℚ) / 10)) := by
  have hred : ∀ p m : ℚ, get_open_backoff (some p) m =
      (if MAX_FILE_OPEN_SLEEP_SEC < (pytrunc (p * m * 100) : ℚ) / 10 then
        max (1 / 10) ((pytrunc (m * 100) : ℚ) / 10)
      else (pytrunc (p * m * 100) : ℚ) / 10) := fun p m => rfl
  refine ⟨fun m => rfl, ?_, ?_⟩
  · intro p m hm0 hm1
    rw [hred]
    by_cases hgt : MAX_FILE_OPEN_SLEEP_SEC < (pytrunc (p * m * 100) : ℚ) / 10
    · rw [if_pos hgt]
      have h100 : (0 : ℚ) ≤ m * 100 := by positivity
      have htr : pytrunc (m * 100) = ⌊m * 100⌋ := by
        unfold pytrunc
        exact if_pos h100
      have hlt : ⌊m * 100⌋ < (100 : ℤ) := by
        rw [Int.floor_lt]
        push_cast
        linarith
      have hle : ((pytrunc (m * 100) : ℚ)) ≤ 99 := by
        rw [htr]
        have : (⌊m * 100⌋ : ℚ) ≤ ((99 : ℤ) : ℚ) := by
          exact_mod_cast Int.lt_add_one_iff.mp hlt
        simpa using this
      refine max_le (by norm_num) ?_
      linarith
    · rw [if_neg hgt]
      push_neg at hgt
      have : MAX_FILE_OPEN_SLEEP_SEC = 30 := rfl
      linarith [hgt, this ▸ hgt]
  · intro p m hgt
    rw [hred, if_pos hgt]

/-- C6 witness: applying the bound at `prev = 50`, `multiplier = 0`. -/
theorem get_open_backoff_bound_witness :
    (0 : ℚ) ≤ 0 ∧ (0 : ℚ) < 1 ∧ get_open_backoff (some 50) 0 ≤ 30 :=
  ⟨le_refl 0, zero_lt_one, get_open_backoff_bound.2.1 50 0 (le_refl 0) zero_lt_one⟩

lemma dictLookup_cons_of_eq {α : Type} {x : String × α} {t : List (String × α)}
    {k : String} (hx : x.1 = k) : dictLookup (x :: t) k = some x.2 := by
  unfold dictLookup
  rw [List.find?_cons_of_pos _ (by simp [hx])]
  rfl

lemma dictLookup_cons_of_ne {α : Type} {x : String × α} {t : List (String × α)}
    {k : String} (hx : ¬ x.1 = k) : dictLookup (x :: t) k = dictLookup t k := by
  unfold dictLookup
  rw [List.find?_cons_of_neg _ (by simp [hx])]

lemma dictLookup_perm {α : Type} {ps₁ ps₂ : List (String × α)}
    (hperm : ps₁.Perm ps₂) :
    (ps₁.map Prod.fst).Nodup → ∀ k, dictLookup ps₁ k = dictLookup ps₂ k := by
  induction hperm with
  | nil => intro _ _; rfl
  | cons x hp ih =>
      intro hnd k
      simp only [List.map_cons, List.nodup_cons] at hnd
      by_cases hx : x.1 = k
      · rw [dictLookup_cons_of_eq hx, dictLookup_cons_of_eq hx]
      · rw [dictLookup_cons_of_ne hx, dictLookup_cons_of_ne hx]
        exact ih hnd.2 k
  | swap x y l =>
      intro hnd k
      simp only [List.map_cons, List.nodup_cons, List.mem_cons] at hnd
      have hxy : ¬ y.1 = x.1 := fun h => hnd.1 (Or.inl h)
      by_cases hy : y.1 = k
      · have hx : ¬ x.1 = k := fun h => hxy (hy.trans h.symm)
        rw [dictLookup_cons_of_eq hy, dictLookup_cons_of_ne hx,
          dictLookup_cons_of_eq hy]
      · by_cases hx : x.1 = k
        · rw [dictLookup_cons_of_ne hy, dictLookup_cons_of_eq hx,
            dictLookup_cons_of_eq hx]
        · rw [dictLookup_cons_of_ne hy, dictLookup_cons_of_ne hx,
            dictLookup_cons_of_ne hx, dictLookup_cons_of_ne hy]
  | trans hp₁ hp₂ ih₁ ih₂ =>
      intro hnd k
      have hnd₂ := ((hp₁.map Prod.fst).nodup_iff).mp hnd
      rw [ih₁ hnd k, ih₂ hnd₂ k]

lemma filterMap_dictLookup_eq_map {α : Type} (names : List String)
    (f : String → α) (ps : List (String × α))
    (h : ∀ k ∈ names, dictLookup ps k = some (f k)) :
    names.filterMap (fun key => dictLookup ps key) = names.map f := by
  induction names with
  | nil => rfl
  | cons n t ih =>
      simp only [List.filterMap_cons, List.map_cons]
      rw [h n (List.mem_cons_self n t)]
      rw [ih (fun k hk => h k (List.mem_cons_of_mem n hk))]

lemma validate_calc_value_dict_red {α : Type} (ps : List (String × α))
    (names : List String) :
    validate_calc_value (CalcValue.pydict ps) names =
      (if (names.filterMap (fun key => dictLookup ps key)).length = names.length
       then .ok (names.filterMap (fun key => dictLookup ps key))
       else .error (.arity names.length
         (names.filterMap (fun key => dictLookup ps key)).length)) := rfl

/-- C4: for a dictionary whose keys cover the expected names,
`validate_calc_value` returns the values ordered by `variable_names` (keys
outside `variable_names` are dropped by construction), and the result only
depends on the dictionary as a mapping: permuting the pairs (insertion order)
of a dict with unique keys leaves the result unchanged. -/
theorem validate_calc_value_dict_order :
    (∀ {α : Type} (pairs : List (String × α)) (variable_names : List String)
        (f : String → α),
      (∀ k ∈ variable_names, dictLookup pairs k = some (f k)) →
      validate_calc_value (CalcValue.pydict pairs) variable_names =
        .ok (variable_names.map f)) ∧
    (∀ {α : Type} (pairs₁ pairs₂ : List (String × α))
        (variable_names : List String),
      pairs₁.Perm pairs₂ → (pairs₁.map Prod.fst).Nodup →
      validate_calc_value (CalcValue.pydict pairs₁) variable_names =
        validate_calc_value (CalcValue.pydict pairs₂) variable_names) := by
  constructor
  · intro α ps names f h
    rw [validate_calc_value_dict_red, filterMap_dictLookup_eq_map names f ps h]
    simp
  · intro α ps₁ ps₂ names hperm hnd
    rw [validate_calc_value_dict_red, validate_calc_value_dict_red,
      show (fun key => dictLookup ps₁ key) = (fun key => dictLookup ps₂ key)
        from funext (fun k => dictLookup_perm hperm hnd k)]

/-- C4 witness: the dict `{width: 3, height: 5, extra: 9}` against expected
names `[height, width]` yields `[5, 3]` in expected-name order, the unknown
key dropped; and the reversed insertion order gives the same result. -/
theorem validate_calc_value_dict_order_witness :
    validate_calc_value
        (CalcValue.pydict [("width", (3 : ℤ)), ("height", 5), ("extra", 9)])
        ["height", "width"] = .ok [5, 3] := by
  have h := validate_calc_value_dict_order.1
    [("width", (3 : ℤ)), ("height", 5), ("extra", 9)] ["height", "width"]
    (fun k => if k = "height" then 5 else 3) ?_
  · simpa using h
  · intro k hk
    rcases List.mem_cons.mp hk with h1 | h2
    · subst h1; rfl
    · rcases List.mem_singleton.mp h2 with h1
      subst h1; rfl

/-- The result of a required-declaration lookup is a `ConfigError` of the spec:
the `RuntimeError` for a missing or empty declaration. -/
def IsConfigError (r : Except PyErr (List String)) : Prop :=
  ∃ n, r = .error (.configMissing n) ∨ r = .error (.configEmpty n)

/-- A demonstration algorithm module that has `calculate` but no
`VARIABLE_NAMES` declaration at all. -/
def demoAlgNoNames : AlgModule := fun name =>
  if name = "calculate" then some (.pyint 1) else none

/-- C8: `get_algorithm_variable_list` raises the `ConfigError` `RuntimeError`
exactly when the declaration is absent or empty after trimming; for a
non-empty trimmed string declaration it returns the comma-split list; and in
`perform_process` the lookup runs before the per-file loop, so the error
aborts the run for any file list. -/
theorem get_algorithm_variable_list_spec :
    (∀ (alg : AlgModule) (name : String),
      IsConfigError (get_algorithm_variable_list alg name) ↔
        (alg name = none ∨
          ∃ s, alg name = some (.pystr s) ∧ s.trim = "")) ∧
    (∀ (alg : AlgModule) (name s : String),
      alg name = some (.pystr s) → s.trim ≠ "" →
      get_algorithm_variable_list alg name = .ok (s.trim.splitOn ",")) ∧
    (∀ (alg : AlgModule) (entryWritten : String → Bool) (files : List String)
        (e : PyErr),
      (alg "calculate").isSome →
      get_algorithm_variable_list alg "VARIABLE_NAMES" = .error e →
      perform_process alg entryWritten files = .error e) := by
  refine ⟨?_, ?_, ?_⟩
  · intro alg name
    unfold get_algorithm_variable_list
    cases h : alg name with
    | none => simp [IsConfigError]
    | some v =>
        cases v with
        | pystr s =>
            by_cases ht : s.trim = ""
            · simp [ht, IsConfigError]
            · simp [ht, IsConfigError]
        | pynone => simp [IsConfigError]
        | pybool b => simp [IsConfigError]
        | pyint n => simp [IsConfigError]
  · intro alg name s h ht
    unfold get_algorithm_variable_list
    rw [h]
    simp [ht]
  · intro alg entryWritten files e hcalc hgavl
    obtain ⟨v, hv⟩ := Option.isSome_iff_exists.mp hcalc
    unfold perform_process
    rw [hv, hgavl]
    rfl

/-- C8 witness: a module lacking the `VARIABLE_NAMES` declaration makes
`perform_process` abort with the `ConfigError` before touching either file in
the list. -/
theorem get_algorithm_variable_list_spec_witness :
    perform_process demoAlgNoNames (fun _ => true) ["one.tif", "two.tif"] =
      .error (.configMissing "VARIABLE_NAMES") :=
  get_algorithm_variable_list_spec.2.2 demoAlgNoNames (fun _ => true)
    ["one.tif", "two.tif"] (.configMissing "VARIABLE_NAMES") rfl rfl

lemma fileSize_eq_zero_iff (lines : FileLines) : fileSize lines = 0 ↔ lines = [] := by
  cases lines with
  | nil => simp [fileSize]
  | cons x t => simp [fileSize]

lemma write_csv_file_red (fn : String) (header : Option String) (d : String)
    (file : Option FileLines) (hfn : fn ≠ "") (hd : d ≠ "") :
    write_csv_file fn header d file =
      (if fileSize (file.getD []) ≤ 0 then
        match header with
        | none => (.error .typeError, some (file.getD []))
        | some h => (.ok true, some (file.getD [] ++ [h, d]))
      else (.ok true, some (file.getD [] ++ [d]))) := by
  unfold write_csv_file
  rw [if_neg (by simp [hfn, hd])]

lemma writeSeq_bool_and (fn h : String) (datas : List String) :
    ∀ (b : Bool) (file : Option FileLines),
      datas.foldl (writeStep fn h) (b, file) =
        (b && (writeSeq fn h datas file).1, (writeSeq fn h datas file).2) := by
  induction datas with
  | nil => intro b file; simp [writeSeq]
  | cons d t ih =>
      intro b file
      unfold writeSeq
      simp only [List.foldl_cons]
      rw [show writeStep fn h (b, file) d =
            (b && (writeStep fn h (true, file) d).1,
             (writeStep fn h (true, file) d).2) from by
          simp [writeStep]]
      rw [ih (b && (writeStep fn h (true, file) d).1)
        (writeStep fn h (true, file) d).2]
      rw [ih (writeStep fn h (true, file) d).1 (writeStep fn h (true, file) d).2]
      simp [Bool.and_assoc]

lemma writeSeq_of_nonempty (fn h : String) (hfn : fn ≠ "") :
    ∀ (datas : List String) (pre : FileLines), pre ≠ [] →
      (∀ d ∈ datas, d ≠ "") →
      writeSeq fn h datas (some pre) = (true, some (pre ++ datas)) := by
  intro datas
  induction datas with
  | nil => intro pre _ _; simp [writeSeq]
  | cons d t ih =>
      intro pre hpre hall
      have hd : d ≠ "" := hall d (List.mem_cons_self d t)
      have hsz : ¬ fileSize pre ≤ 0 := by
        rw [Nat.le_zero, fileSize_eq_zero_iff]
        exact hpre
      have hstep : writeStep fn h (true, some pre) d =
          (true, some (pre ++ [d])) := by
        unfold writeStep
        rw [write_csv_file_red fn (some h) d (some pre) hfn hd]
        rw [Option.getD_some, if_neg hsz]
        rfl
      unfold writeSeq
      simp only [List.foldl_cons]
      rw [hstep]
      have hrest := ih (pre ++ [d]) (by simp) (fun x hx => hall x (List.mem_cons_of_mem d hx))
      unfold writeSeq at hrest
      rw [hrest]
      simp

/-- C2: after a successful open, `write_csv_file` writes the header line
exactly when the file size is zero at open time; consequently N sequential
successful calls against an initially-absent file leave exactly one header
line followed by the N data lines in order. -/
theorem write_csv_file_header_once :
    (∀ (fn h d : String) (lines : FileLines), fn ≠ "" → d ≠ "" →
      write_csv_file fn (some h) d (some lines) =
        (if fileSize lines = 0 then (.ok true, some (lines ++ [h, d]))
         else (.ok true, some (lines ++ [d])))) ∧
    (∀ (fn h : String) (datas : List String), fn ≠ "" → datas ≠ [] →
      (∀ d ∈ datas, d ≠ "") →
      writeSeq fn h datas none = (true, some (h :: datas))) := by
  constructor
  · intro fn h d lines hfn hd
    rw [write_csv_file_red fn (some h) d (some lines) hfn hd]
    rw [Option.getD_some]
    by_cases hz : fileSize lines = 0
    · rw [if_pos (Nat.le_zero.mpr hz), if_pos hz]
    · rw [if_neg (fun hle => hz (Nat.le_zero.mp hle)), if_neg hz]
  · intro fn h datas hfn hne hall
    cases datas with
    | nil => exact absurd rfl hne
    | cons d t =>
        have hd : d ≠ "" := hall d (List.mem_cons_self d t)
        have hstep : writeStep fn h (true, none) d = (true, some [h, d]) := by
          unfold writeStep
          rw [write_csv_file_red fn (some h) d none hfn hd]
          rfl
        unfold writeSeq
        simp only [List.foldl_cons]
        rw [hstep]
        have hrest := writeSeq_of_nonempty fn h hfn t [h, d] (by simp)
          (fun x hx => hall x (List.mem_cons_of_mem d hx))
        unfold writeSeq at hrest
        rw [hrest]
        simp

/-- C2 witness: three sequential writes against an initially-absent CSV file
produce one header line followed by the three data lines. -/
theorem write_csv_file_header_once_witness :
    writeSeq "lidar_plot.csv" "site,trait" ["1,2", "3,4", "5,6"] none =
      (true, some ["site,trait", "1,2", "3,4", "5,6"]) :=
  write_csv_file_header_once.2 "lidar_plot.csv" "site,trait"
    ["1,2", "3,4", "5,6"] (by decide) (by decide) (by decide)

/-- C10: calling `write_csv_file` with `header = None` on a zero-size file
raises `TypeError` from `None + "\n"` and writes no data row (the file keeps
only what the open created), while the same call on a non-empty file skips
the header branch and appends just the data row. -/
theorem write_csv_file_none_header :
    (∀ (fn d : String) (lines : FileLines), fn ≠ "" → d ≠ "" →
      fileSize lines = 0 →
      write_csv_file fn none d (some lines) = (.error .typeError, some lines)) ∧
    (∀ (fn d : String) (lines : FileLines), fn ≠ "" → d ≠ "" →
      fileSize lines ≠ 0 →
      write_csv_file fn none d (some lines) = (.ok true, some (lines ++ [d]))) := by
  constructor
  · intro fn d lines hfn hd hz
    rw [write_csv_file_red fn none d (some lines) hfn hd]
    rw [Option.getD_some, if_pos (Nat.le_zero.mpr hz)]
  · intro fn d lines hfn hd hz
    rw [write_csv_file_red fn none d (some lines) hfn hd]
    rw [Option.getD_some, if_neg (fun hle => hz (Nat.le_zero.mp hle))]

/-- C10 witness: with a fresh (empty) file the `None` header raises
`TypeError` and nothing is written; with a non-empty file the data row is
appended. -/
theorem write_csv_file_none_header_witness :
    write_csv_file "out.csv" none "1,2" (some []) = (.error .typeError, some []) ∧
    write_csv_file "out.csv" none "1,2" (some ["hdr"]) =
      (.ok true, some ["hdr", "1,2"]) :=
  ⟨write_csv_file_none_header.1 "out.csv" "1,2" [] (by decide) (by decide) rfl,
   write_csv_file_none_header.2 "out.csv" "1,2" ["hdr"] (by decide) (by decide)
     (by decide)⟩
